import Mathlib

/-!
Verification of the icon generator in `src/icons/gen.py`.

The script defines `create_simple_icon(size)`, which allocates an RGB
canvas of `size × size` pixels filled with the color `'#4285f4'`, computes
`margin = size // 4`, and draws a filled white ellipse with bounding box
`[margin, margin, size - margin, size - margin]`.  The module then saves
`icon-<sz>.png` for each `sz` in `[72, 96, 128, 144, 152, 192, 384, 512]`,
followed by `icon-192-maskable.png`, `icon-512-maskable.png`, and
`badge-72.png`.

The embedding models an image as its dimensions, its mode string, and a
pixel function; `draw.ellipse` fills every pixel whose center lies inside
the ellipse inscribed in the given bounding box.  The driving loop is
modelled as the ordered list of `(filename, image)` writes; file-system
failures are modelled by an explicit `Except`-valued save function that
the write loop threads through without catching, as the script does.
-/

namespace PushMe

/-- An RGB color triple `(r, g, b)`, one `Nat` per 8-bit channel. -/
abbrev Color := Nat × Nat × Nat

/-- The fill color `'white'` used for the ellipse. -/
def white : Color := (255, 255, 255)

/-- The canvas background color `'#4285f4'` (hex `42`=66, `85`=133, `f4`=244). -/
def base_color : Color := (66, 133, 244)

/-- An in-memory raster image: dimensions, PIL mode string, pixel grid. -/
structure Img where
  width : Nat
  height : Nat
  mode : String
  pix : Nat → Nat → Color

/-- `Image.new(mode, (w, h), color)`: a `w × h` canvas uniformly filled with `c`. -/
def image_new (mode : String) (w h : Nat) (c : Color) : Img :=
  ⟨w, h, mode, fun _ _ => c⟩

/-- `margin = size // 4` (line 6 of `gen.py`): Python floor division on a
nonnegative operand agrees with `Nat` division. -/
def margin_of (size : Nat) : Nat := size / 4

/-- The bounding-box list `[margin, margin, size - margin, size - margin]`
passed to `draw.ellipse` (line 7 of `gen.py`), as `(x0, y0, x1, y1)`. -/
def ellipse_bbox (size : Nat) : Int × Int × Int × Int :=
  (margin_of size, margin_of size,
   (size : Int) - margin_of size, (size : Int) - margin_of size)

/-- Membership test for the ellipse inscribed in bounding box `(x0, y0, x1, y1)`:
the point `(x, y)` satisfies `((x-cx)/a)^2 + ((y-cy)/b)^2 ≤ 1` where
`(cx, cy)` is the box center and `a, b` the semi-axes, cleared of
denominators by scaling by 4·a²·b². -/
def inside_ellipse (bbox : Int × Int × Int × Int) (x y : Int) : Bool :=
  let dx := 2 * x - (bbox.1 + bbox.2.2.1)
  let dy := 2 * y - (bbox.2.1 + bbox.2.2.2)
  let a := bbox.2.2.1 - bbox.1
  let b := bbox.2.2.2 - bbox.2.1
  decide (dx ^ 2 * b ^ 2 + dy ^ 2 * a ^ 2 ≤ a ^ 2 * b ^ 2)

/-- `draw.ellipse(bbox, fill=c)`: fill every pixel inside the ellipse with `c`,
leaving all other pixels unchanged. -/
def draw_ellipse (img : Img) (bbox : Int × Int × Int × Int) (fill : Color) : Img :=
  { img with
    pix := fun x y => if inside_ellipse bbox x y then fill else img.pix x y }

/-- `create_simple_icon(size)` (lines 3–8 of `gen.py`). -/
def create_simple_icon (size : Nat) : Img :=
  let img := image_new "RGB" size size base_color
  draw_ellipse img (ellipse_bbox size) white

/-- The fixed size list of the driving loop (line 10 of `gen.py`). -/
def sizes : List Nat := [72, 96, 128, 144, 152, 192, 384, 512]

/-- The f-string `f'icon-\x7bsz\x7d.png'` (line 11 of `gen.py`). -/
def icon_name (sz : Nat) : String := "icon-" ++ toString sz ++ ".png"

/-- The ordered sequence of `(filename, image)` pairs the module saves
(lines 10–15 of `gen.py`). -/
def program_writes : List (String × Img) :=
  sizes.map (fun sz => (icon_name sz, create_simple_icon sz))
  ++ [("icon-192-maskable.png", create_simple_icon 192),
      ("icon-512-maskable.png", create_simple_icon 512),
      ("badge-72.png", create_simple_icon 72)]

/-- Whether a filename carries the `.png` extension: PIL's `save` derives
the PNG output format from this extension.  Stated on the character list
of the string. -/
def ends_with_png (n : String) : Bool :=
  List.isSuffixOf ".png".data n.data

/-- Whether a save attempt succeeded. -/
def is_ok (r : Except String Unit) : Bool :=
  match r with
  | .ok _ => true
  | .error _ => false

/-- The module's write sequence threaded through a fallible `save`: each
`.save(path)` call either succeeds or raises; the script has no
`try`/`except`, so the first raised error stops the run.  Returns the
filenames written and the uncaught error, if any. -/
def write_loop (save : String → Img → Except String Unit) :
    List (String × Img) → List String × Option String
  | [] => ([], none)
  | (n, img) :: rest =>
    match save n img with
    | .error e => ([], some e)
    | .ok _ =>
      let p := write_loop save rest
      (n :: p.1, p.2)

/-- Running the whole module against a fallible file system. -/
def run_with_save (save : String → Img → Except String Unit) :
    List String × Option String :=
  write_loop save program_writes

/-! ## General lemmas -/

/-- The corner `(0, 0)` lies outside any ellipse whose bounding box is the
square `[m, m, s - m, s - m]` with `2 * m < s`: at the corner the scaled
ellipse equation reads `2 * s² * c² ≤ c⁴` for `c = s - 2m`, which fails
since `1 ≤ c ≤ s`. -/
theorem corner_outside (s m : Nat) (hm : 2 * m < s) :
    inside_ellipse ((m : Int), (m : Int), (s : Int) - m, (s : Int) - m) 0 0 = false := by
  unfold inside_ellipse
  dsimp only
  rw [decide_eq_false_iff_not]
  intro hle
  have h1 : (1 : Int) ≤ (s : Int) - m - m := by omega
  have h2 : (s : Int) - m - m ≤ (s : Int) := by omega
  have h3 : (0 : Int) < (s : Int) := by omega
  have hdx : (2 * (0 : Int) - ((m : Int) + ((s : Int) - (m : Int)))) = -(s : Int) := by
    ring
  rw [hdx] at hle
  set c : Int := (s : Int) - m - m with hc
  have hc2 : c ^ 2 ≤ (s : Int) ^ 2 := by nlinarith
  have hc1 : (1 : Int) ≤ c ^ 2 := by nlinarith
  have hs2 : (1 : Int) ≤ (s : Int) ^ 2 := by nlinarith
  have hneg : (-(s : Int)) ^ 2 = (s : Int) ^ 2 := by ring
  rw [hneg] at hle
  nlinarith [hle, hc2, hc1, hs2, sq_nonneg c]

/-- Pixels of `create_simple_icon`: white inside the ellipse, base color
outside. -/
theorem create_simple_icon_pix (s : Nat) (x y : Nat) :
    (create_simple_icon s).pix x y =
      if inside_ellipse (ellipse_bbox s) x y then white else base_color := rfl

/-- The write loop writes exactly the prefix of filenames before the first
failing save, and finishes without an uncaught error iff every save
succeeds. -/
theorem write_loop_characterization (save : String → Img → Except String Unit)
    (l : List (String × Img)) :
    (write_loop save l).1 =
      (l.takeWhile (fun p => is_ok (save p.1 p.2))).map Prod.fst ∧
    ((write_loop save l).2 = none ↔ ∀ p ∈ l, is_ok (save p.1 p.2) = true) := by
  induction l with
  | nil => simp [write_loop]
  | cons hd tl ih =>
    obtain ⟨n, img⟩ := hd
    obtain ⟨ih1, ih2⟩ := ih
    cases h : save n img with
    | error e =>
      simp [write_loop, h, List.takeWhile_cons, is_ok]
    | ok u =>
      simp [write_loop, h, List.takeWhile_cons, is_ok, ih1, ih2]

/-! ## The claims -/

/-- Claim C1: for every positive size `s`, `create_simple_icon s` is an
`s × s` image whose every pixel is white inside, and the base color
outside, the ellipse with bounding box `[m, m, s - m, s - m]` for
`m = s / 4`. -/
theorem C1_icon_shape (s : Nat) (hs : 0 < s) :
    (create_simple_icon s).width = s ∧ (create_simple_icon s).height = s ∧
    ellipse_bbox s =
      (((s / 4 : Nat) : Int), ((s / 4 : Nat) : Int),
       (s : Int) - (s / 4 : Nat), (s : Int) - (s / 4 : Nat)) ∧
    ∀ x y : Nat, (create_simple_icon s).pix x y =
      if inside_ellipse (ellipse_bbox s) x y then white else base_color :=
  ⟨rfl, rfl, rfl, fun _ _ => rfl⟩

/-- Witness for C1 at `s = 72`. -/
theorem C1_icon_shape_witness :
    (create_simple_icon 72).width = 72 ∧ (create_simple_icon 72).height = 72 ∧
    ellipse_bbox 72 =
      (((72 / 4 : Nat) : Int), ((72 / 4 : Nat) : Int),
       (72 : Int) - (72 / 4 : Nat), (72 : Int) - (72 / 4 : Nat)) ∧
    ∀ x y : Nat, (create_simple_icon 72).pix x y =
      if inside_ellipse (ellipse_bbox 72) x y then white else base_color :=
  C1_icon_shape 72 (by decide)

/-- Claim C2: the module writes exactly eleven files, with exactly these
names in this order. -/
theorem C2_eleven_png_files :
    program_writes.map Prod.fst =
      ["icon-72.png", "icon-96.png", "icon-128.png", "icon-144.png",
       "icon-152.png", "icon-192.png", "icon-384.png", "icon-512.png",
       "icon-192-maskable.png", "icon-512-maskable.png", "badge-72.png"] ∧
    program_writes.length = 11 := by
  constructor <;> rfl

/-- Claim C3: for every size in the fixed set, the center pixel is white and
the corner pixel `(0, 0)` is the base color, which is not white. -/
theorem C3_center_white_corner_base :
    ∀ s ∈ sizes,
      (create_simple_icon s).pix (s / 2) (s / 2) = white ∧
      (create_simple_icon s).pix 0 0 = base_color ∧
      base_color ≠ white := by decide

/-- Witness for C3 at `s = 72`. -/
theorem C3_center_white_corner_base_witness :
    (create_simple_icon 72).pix (72 / 2) (72 / 2) = white ∧
    (create_simple_icon 72).pix 0 0 = base_color ∧
    base_color ≠ white :=
  C3_center_white_corner_base 72 (by decide)

/-- Claim C4: the images saved under the three variant names are equal to
the images saved under the base names of the same size. -/
theorem C4_variants_pixel_identical :
    List.lookup "icon-192-maskable.png" program_writes =
      List.lookup "icon-192.png" program_writes ∧
    List.lookup "icon-512-maskable.png" program_writes =
      List.lookup "icon-512.png" program_writes ∧
    List.lookup "badge-72.png" program_writes =
      List.lookup "icon-72.png" program_writes :=
  ⟨rfl, rfl, rfl⟩

/-- Claim C5: determinism — any two results of `create_simple_icon` at the
same size are identical, and any two runs of the module produce identical
write sequences; neither depends on any input besides the size. -/
theorem C5_deterministic (s : Nat) (img1 img2 : Img)
    (h1 : img1 = create_simple_icon s) (h2 : img2 = create_simple_icon s)
    (run1 run2 : List (String × Img))
    (hr1 : run1 = program_writes) (hr2 : run2 = program_writes) :
    img1 = img2 ∧ run1 = run2 := by
  subst h1 h2 hr1 hr2
  exact ⟨rfl, rfl⟩

/-- Witness for C5 at `s = 72`. -/
theorem C5_deterministic_witness :
    create_simple_icon 72 = create_simple_icon 72 ∧
    program_writes = program_writes :=
  C5_deterministic 72 (create_simple_icon 72) (create_simple_icon 72) rfl rfl
    program_writes program_writes rfl rfl

/-- Claim C6: size 72 yields margin 18 and bounding box `[18, 18, 54, 54]`;
size 512 yields margin 128 and bounding box `[128, 128, 384, 384]`; for
every size the horizontal and vertical extent of the box is
`s - 2 * (s / 4)`. -/
theorem C6_margin_boundary_values :
    margin_of 72 = 18 ∧ ellipse_bbox 72 = (18, 18, 54, 54) ∧
    margin_of 512 = 128 ∧ ellipse_bbox 512 = (128, 128, 384, 384) ∧
    ∀ s : Nat,
      (ellipse_bbox s).2.2.1 - (ellipse_bbox s).1 =
        (s : Int) - 2 * (margin_of s : Int) ∧
      (ellipse_bbox s).2.2.2 - (ellipse_bbox s).2.1 =
        (s : Int) - 2 * (margin_of s : Int) := by
  refine ⟨rfl, by decide, rfl, by decide, fun s => ?_⟩
  unfold ellipse_bbox
  dsimp only
  constructor <;> ring

/-- Claim C7: every saved image is in `"RGB"` mode with each channel below
256 (8 bits per channel, no alpha), and every saved filename has the
`.png` extension. -/
theorem C7_rgb_png :
    (∀ p ∈ program_writes, p.2.mode = "RGB" ∧ ends_with_png p.1 = true) ∧
    ∀ s x y : Nat,
      ((create_simple_icon s).pix x y).1 < 256 ∧
      ((create_simple_icon s).pix x y).2.1 < 256 ∧
      ((create_simple_icon s).pix x y).2.2 < 256 := by
  constructor
  · decide
  · intro s x y
    rw [create_simple_icon_pix]
    split <;> decide

/-- Claim C8: against any fallible file system, the module writes exactly
the filenames preceding the first failing save, and ends with an uncaught
error exactly when some save fails — no error is caught anywhere. -/
theorem C8_errors_propagate (save : String → Img → Except String Unit) :
    (run_with_save save).1 =
      (program_writes.takeWhile (fun p => is_ok (save p.1 p.2))).map Prod.fst ∧
    ((run_with_save save).2 = none ↔
      ∀ p ∈ program_writes, is_ok (save p.1 p.2) = true) :=
  write_loop_characterization save program_writes

/-- Claim C9: the base color is exactly `#4285f4 = (66, 133, 244)`; every
pixel outside the ellipse — in particular the corner `(0, 0)`, for every
positive size — carries it. -/
theorem C9_base_color_is_4285f4 (s : Nat) (hs : 0 < s) :
    base_color = (66, 133, 244) ∧
    (∀ x y : Nat, inside_ellipse (ellipse_bbox s) x y = false →
      (create_simple_icon s).pix x y = base_color) ∧
    inside_ellipse (ellipse_bbox s) 0 0 = false ∧
    (create_simple_icon s).pix 0 0 = base_color := by
  have hcorner : inside_ellipse (ellipse_bbox s) 0 0 = false := by
    have hb : ellipse_bbox s =
        (((s / 4 : Nat) : Int), ((s / 4 : Nat) : Int),
         (s : Int) - (s / 4 : Nat), (s : Int) - (s / 4 : Nat)) := rfl
    rw [hb]
    exact corner_outside s (s / 4) (by omega)
  have hout : ∀ x y : Nat, inside_ellipse (ellipse_bbox s) x y = false →
      (create_simple_icon s).pix x y = base_color := by
    intro x y hxy
    rw [create_simple_icon_pix, hxy]
    rfl
  exact ⟨rfl, hout, hcorner, hout 0 0 hcorner⟩

/-- Witness for C9 at `s = 5`. -/
theorem C9_base_color_is_4285f4_witness :
    base_color = (66, 133, 244) ∧
    (∀ x y : Nat, inside_ellipse (ellipse_bbox 5) x y = false →
      (create_simple_icon 5).pix x y = base_color) ∧
    inside_ellipse (ellipse_bbox 5) 0 0 = false ∧
    (create_simple_icon 5).pix 0 0 = base_color :=
  C9_base_color_is_4285f4 5 (by decide)

/-- Claim C10: for every positive size the margin satisfies
`margin ≤ s - margin`, so the bounding box is well-formed; for sizes 1, 2
and 3 the margin is 0 and the box is `[0, 0, s, s]`, touching the canvas
edges. -/
theorem C10_bbox_wellformed (s : Nat) (hs : 0 < s) :
    margin_of s ≤ s - margin_of s ∧
    margin_of 1 = 0 ∧ ellipse_bbox 1 = (0, 0, 1, 1) ∧
    margin_of 2 = 0 ∧ ellipse_bbox 2 = (0, 0, 2, 2) ∧
    margin_of 3 = 0 ∧ ellipse_bbox 3 = (0, 0, 3, 3) := by
  refine ⟨?_, rfl, by decide, rfl, by decide, rfl, by decide⟩
  unfold margin_of
  omega

/-- Witness for C10 at `s = 72`. -/
theorem C10_bbox_wellformed_witness :
    margin_of 72 ≤ 72 - margin_of 72 ∧
    margin_of 1 = 0 ∧ ellipse_bbox 1 = (0, 0, 1, 1) ∧
    margin_of 2 = 0 ∧ ellipse_bbox 2 = (0, 0, 2, 2) ∧
    margin_of 3 = 0 ∧ ellipse_bbox 3 = (0, 0, 3, 3) :=
  C10_bbox_wellformed 72 (by decide)

end PushMe
